import Mathlib

/-!
Shallow embedding of the Dropbox OAuth token relay in src/main.go.

The program is a stateless HTTP-to-HTTP relay: two endpoints decode a JSON
body, build form parameters with credentials from configuration, POST them
to the upstream token endpoint, and copy the upstream status and body back.
Handlers are modelled as pure functions from the decoded request and the
upstream network behaviour to a response-writer state together with the list
of upstream calls issued (one list entry per PostForm invocation).
-/

namespace TokenRelay

/-- The Config struct of src/main.go: three credential strings. -/
structure Config where
  clientID : String
  clientSecret : String
  redirectURI : String
deriving DecidableEq

/-- Inbound shape of the authorization-code exchange endpoint. -/
structure AuthCodeRequest where
  code : String
deriving DecidableEq

/-- Inbound shape of the refresh-token exchange endpoint. -/
structure RefreshRequest where
  refreshToken : String
deriving DecidableEq

/-- JSON values, used to model the request body handed to json.Decode.
A request body that is not parseable JSON at all is `Option.none` at the
use sites below. -/
inductive Json where
  | null
  | bool (b : Bool)
  | num (n : Int)
  | str (s : String)
  | arr (elems : List Json)
  | obj (fields : List (String × Json))

/-- encoding/json struct decoding of a single string field with the given
tag, scanning object fields in order: a string value sets the field (last
occurrence wins), a null leaves it unchanged, any other type is a decode
error. Fields with other keys are ignored. (Go's case-insensitive fallback
match for field names is not exercised by any claim and is not modelled.) -/
def decodeField (tag : String) (acc : String) : List (String × Json) → Except Unit String
  | [] => Except.ok acc
  | (k, v) :: rest =>
      if k = tag then
        match v with
        | Json.str s => decodeField tag s rest
        | Json.null => decodeField tag acc rest
        | _ => Except.error ()
      else decodeField tag acc rest

/-- json.NewDecoder(r.Body).Decode into a struct with one string field:
unparseable bytes and non-object JSON values are decode errors, a JSON null
leaves the struct at its zero value, and an object is scanned field by
field. -/
def decodeStringField (tag : String) (body : Option Json) : Except Unit String :=
  match body with
  | none => Except.error ()
  | some Json.null => Except.ok ""
  | some (Json.obj fields) => decodeField tag "" fields
  | some _ => Except.error ()

/-- Decoding the exchange endpoint body into AuthCodeRequest. -/
def decodeAuthCode (body : Option Json) : Except Unit AuthCodeRequest :=
  (decodeStringField "code" body).map (fun s => { code := s })

/-- Decoding the refresh endpoint body into RefreshRequest. -/
def decodeRefresh (body : Option Json) : Except Unit RefreshRequest :=
  (decodeStringField "refresh_token" body).map (fun s => { refreshToken := s })

/-- The state of an http.ResponseWriter: headers set so far, the status
code once WriteHeader has run, and the body bytes written. -/
structure ResponseState where
  headers : List (String × String)
  status : Option Nat
  body : List Nat
deriving DecidableEq

/-- A fresh ResponseWriter. -/
def emptyResponse : ResponseState := { headers := [], status := none, body := [] }

/-- w.Header().Set(k, v): replace any existing value for the key. -/
def setHeader (w : ResponseState) (k v : String) : ResponseState :=
  { w with headers := w.headers.filter (fun p => p.1 ≠ k) ++ [(k, v)] }

/-- Read a header value from the response state. -/
def getHeader (w : ResponseState) (k : String) : Option String :=
  (w.headers.find? (fun p => p.1 = k)).map Prod.snd

/-- w.WriteHeader(s): the first call fixes the status; later calls are
ignored, as net/http ignores superfluous WriteHeader calls. -/
def writeHeader (w : ResponseState) (s : Nat) : ResponseState :=
  match w.status with
  | some _ => w
  | none => { w with status := some s }

/-- w.Write(bs): an implicit WriteHeader(200) if none was sent, then the
bytes are appended to the body. -/
def write (w : ResponseState) (bs : List Nat) : ResponseState :=
  let w' := match w.status with
    | some _ => w
    | none => { w with status := some 200 }
  { w' with body := w'.body ++ bs }

/-- UTF-8 bytes of a string, as natural numbers. -/
def strBytes (s : String) : List Nat :=
  s.toUTF8.toList.map (fun b => b.toNat)

/-- The bytes json.NewEncoder(w).Encode writes for map[string]string
with the single key "error": the JSON object followed by a newline. -/
def jsonErrorDoc (message : String) : String :=
  "\x7b\"error\":\"" ++ message ++ "\"\x7d\n"

/-- writeError of src/main.go: set Content-Type application/json, send the
status, encode the error object. -/
def writeError (w : ResponseState) (message : String) (status : Nat) : ResponseState :=
  let w1 := setHeader w "Content-Type" "application/json"
  let w2 := writeHeader w1 status
  write w2 (strBytes (jsonErrorDoc message))

/-- Form parameters of one upstream call, in the order built in source. -/
abbrev FormData := List (String × String)

/-- What the network returned for one upstream PostForm call: the status
code, the bytes io.ReadAll obtained from the response body, and whether
the read ended in an error after those bytes (a partial read). -/
structure UpstreamResp where
  statusCode : Nat
  bodyBytes : List Nat
  readError : Bool
deriving DecidableEq

/-- The behaviour of the upstream provider: for each form-parameter set,
either a transport failure (Except.error) or a received response. -/
abbrev Upstream := FormData → Except Unit UpstreamResp

/-- callDropbox of src/main.go: one PostForm call; on transport error a
502 with a JSON error body; otherwise io.ReadAll (its error discarded),
Content-Type set to the literal "application_json", then the upstream
status and the bytes read are copied out. Returns the writer state and
the list of upstream calls made. -/
def callDropbox (upstream : Upstream) (w : ResponseState) (data : FormData) :
    ResponseState × List FormData :=
  match upstream data with
  | Except.error _ => (writeError w "failed to contact dropbox" 502, [data])
  | Except.ok resp =>
      let body := resp.bodyBytes
      let w1 := setHeader w "Content-Type" "application_json"
      let w2 := writeHeader w1 resp.statusCode
      (write w2 body, [data])

/-- exchangeHanlder of src/main.go (name kept from source): decode the
body as AuthCodeRequest; on failure 400, otherwise build the five form
parameters and call upstream. -/
def exchangeHanlder (cfg : Config) (upstream : Upstream) (body : Option Json)
    (w : ResponseState) : ResponseState × List FormData :=
  match decodeAuthCode body with
  | Except.error _ => (writeError w "invalid request body" 400, [])
  | Except.ok req =>
      let data : FormData :=
        [("code", req.code),
         ("grant_type", "authorization_code"),
         ("client_id", cfg.clientID),
         ("client_secret", cfg.clientSecret),
         ("redirect_uri", cfg.redirectURI)]
      callDropbox upstream w data

/-- refreshHandler of src/main.go: decode the body as RefreshRequest; on
failure 400, otherwise build the four form parameters and call upstream. -/
def refreshHandler (cfg : Config) (upstream : Upstream) (body : Option Json)
    (w : ResponseState) : ResponseState × List FormData :=
  match decodeRefresh body with
  | Except.error _ => (writeError w "invalid request body" 400, [])
  | Except.ok req =>
      let data : FormData :=
        [("refresh_token", req.refreshToken),
         ("grant_type", "refresh_token"),
         ("client_id", cfg.clientID),
         ("client_secret", cfg.clientSecret)]
      callDropbox upstream w data

/-- An inbound HTTP request: method, path, and the body as seen by the
JSON decoder. -/
structure Request where
  method : String
  path : String
  body : Option Json

/-- A handler in the sense of http.Handler.ServeHTTP, also reporting the
upstream calls it issued. -/
abbrev Handler := Request → ResponseState → ResponseState × List FormData

/-- The net/http default NotFound handler used by ServeMux for
unregistered paths. -/
def notFoundHandler (w : ResponseState) : ResponseState :=
  let w1 := setHeader w "Content-Type" "text/plain; charset=utf-8"
  let w2 := setHeader w1 "X-Content-Type-Options" "nosniff"
  let w3 := writeHeader w2 404
  write w3 (strBytes "404 page not found\n")

/-- The ServeMux of src/main.go: the two registered exact paths dispatch
to the handlers, anything else to NotFound. Neither branch inspects the
request method. -/
def mux (cfg : Config) (upstream : Upstream) : Handler := fun req w =>
  if req.path = "/api/dropbox/exchange" then exchangeHanlder cfg upstream req.body w
  else if req.path = "/api/dropbox/refresh" then refreshHandler cfg upstream req.body w
  else (notFoundHandler w, [])

/-- withCORS of src/main.go: set the three CORS headers on every request,
answer OPTIONS with 204 and no body without calling the wrapped handler,
and delegate everything else. -/
def withCORS (next : Handler) : Handler := fun req w =>
  let w1 := setHeader w "Access-Control-Allow-Origin" "http://localhost:4200"
  let w2 := setHeader w1 "Access-Control-Allow-Methods" "POST, GET, OPTIONS, PUT, DELETE"
  let w3 := setHeader w2 "Access-Control-Allow-Headers" "Content-Type, Authorization"
  if req.method = "OPTIONS" then (writeHeader w3 204, [])
  else next req w3

/-- The full request-serving pipeline of src/main.go: CORS wrapper around
the mux, starting from a fresh ResponseWriter. -/
def serve (cfg : Config) (upstream : Upstream) (req : Request) :
    ResponseState × List FormData :=
  withCORS (mux cfg upstream) req emptyResponse

/-- Outcome of process startup: either a fatal panic with its message, or
a started server holding the loaded configuration. -/
inductive StartupResult where
  | fatal (message : String)
  | started (cfg : Config)
deriving DecidableEq

/-- The startup section of main in src/main.go: load the three environment
variables, then check them for emptiness in the fixed order client ID,
client secret, redirect URI, panicking on the first empty one. The first
panic message says "variables" where the others say "variable", exactly as
in source. -/
def mainStartup (env : String → String) : StartupResult :=
  let cfg : Config :=
    { clientID := env "DROPBOX_CLIENT_ID",
      clientSecret := env "DROPBOX_CLIENT_SECRET",
      redirectURI := env "DROPBOX_REDIRECT_URI" }
  if cfg.clientID = "" then
    StartupResult.fatal "Missing required environment variables: DROPBOX_CLIENT_ID"
  else if cfg.clientSecret = "" then
    StartupResult.fatal "Missing required environment variable: DROPBOX_CLIENT_SECRET"
  else if cfg.redirectURI = "" then
    StartupResult.fatal "Missing required environment variable: DROPBOX_REDIRECT_URI"
  else
    StartupResult.started cfg

/-- A sample configuration for concrete instantiations. -/
def cfgEx : Config :=
  { clientID := "id", clientSecret := "secret", redirectURI := "http://cb" }

/-- A sample upstream answering every call with status 200 and a fully
read two-byte body. -/
def upstreamOk200 : Upstream :=
  fun _ => Except.ok { statusCode := 200, bodyBytes := [104, 105], readError := false }

/-- A sample upstream answering every call with status 404 and a fully
read three-byte body. -/
def upstream404 : Upstream :=
  fun _ => Except.ok { statusCode := 404, bodyBytes := [5, 6, 7], readError := false }

/-- A sample upstream failing at transport level on every call. -/
def upstreamDown : Upstream := fun _ => Except.error ()

/-- A sample upstream whose response body read fails after one byte. -/
def upstreamPartial : Upstream :=
  fun _ => Except.ok { statusCode := 418, bodyBytes := [104], readError := true }

theorem find?_filter_append (hs : List (String × String)) (k v k' : String) (h : k' ≠ k) :
    List.find? (fun p => p.1 = k') (hs.filter (fun p => p.1 ≠ k) ++ [(k, v)]) =
    List.find? (fun p => p.1 = k') hs := by
  induction hs with
  | nil =>
      simp only [List.filter_nil, List.nil_append, List.find?_nil]
      rw [List.find?_cons_of_neg _ (by simp [Ne.symm h]), List.find?_nil]
  | cons p rest ih =>
      by_cases hp1 : p.1 = k
      · have hp2 : ¬ (p.1 = k') := by rw [hp1]; exact Ne.symm h
        rw [List.filter_cons_of_neg (by simp [hp1]),
          List.find?_cons_of_neg _ (by simp [hp2]), ih]
      · by_cases hp2 : p.1 = k'
        · rw [List.filter_cons_of_pos (by simp [hp1]), List.cons_append,
            List.find?_cons_of_pos _ (by simp [hp2]),
            List.find?_cons_of_pos _ (by simp [hp2])]
        · rw [List.filter_cons_of_pos (by simp [hp1]), List.cons_append,
            List.find?_cons_of_neg _ (by simp [hp2]),
            List.find?_cons_of_neg _ (by simp [hp2]), ih]

theorem getHeader_setHeader_ne (w : ResponseState) (k v k' : String) (h : k' ≠ k) :
    getHeader (setHeader w k v) k' = getHeader w k' := by
  unfold getHeader setHeader
  simp only
  rw [find?_filter_append _ _ _ _ h]

theorem getHeader_writeHeader (w : ResponseState) (s : Nat) (k : String) :
    getHeader (writeHeader w s) k = getHeader w k := by
  unfold getHeader writeHeader
  cases w.status <;> rfl

theorem getHeader_write (w : ResponseState) (bs : List Nat) (k : String) :
    getHeader (write w bs) k = getHeader w k := by
  unfold getHeader write
  cases w.status <;> rfl

theorem getHeader_writeError (w : ResponseState) (m : String) (s : Nat) (k : String)
    (h : k ≠ "Content-Type") :
    getHeader (writeError w m s) k = getHeader w k := by
  unfold writeError
  rw [getHeader_write, getHeader_writeHeader, getHeader_setHeader_ne _ _ _ _ h]

theorem getHeader_callDropbox (upstream : Upstream) (w : ResponseState) (data : FormData)
    (k : String) (h : k ≠ "Content-Type") :
    getHeader (callDropbox upstream w data).1 k = getHeader w k := by
  unfold callDropbox
  cases upstream data with
  | error e => exact getHeader_writeError w _ _ k h
  | ok resp =>
      simp only
      rw [getHeader_write, getHeader_writeHeader, getHeader_setHeader_ne _ _ _ _ h]

theorem getHeader_mux (cfg : Config) (upstream : Upstream) (req : Request)
    (w : ResponseState) (k : String)
    (h1 : k ≠ "Content-Type") (h2 : k ≠ "X-Content-Type-Options") :
    getHeader (mux cfg upstream req w).1 k = getHeader w k := by
  unfold mux
  by_cases hp : req.path = "/api/dropbox/exchange"
  · rw [if_pos hp]
    unfold exchangeHanlder
    cases decodeAuthCode req.body with
    | error e => exact getHeader_writeError w _ _ k h1
    | ok r => exact getHeader_callDropbox upstream w _ k h1
  · rw [if_neg hp]
    by_cases hp2 : req.path = "/api/dropbox/refresh"
    · rw [if_pos hp2]
      unfold refreshHandler
      cases decodeRefresh req.body with
      | error e => exact getHeader_writeError w _ _ k h1
      | ok r => exact getHeader_callDropbox upstream w _ k h1
    · rw [if_neg hp2]
      unfold notFoundHandler
      simp only
      rw [getHeader_write, getHeader_writeHeader,
        getHeader_setHeader_ne _ _ _ _ h2, getHeader_setHeader_ne _ _ _ _ h1]

/-- The writer state after withCORS has set its three headers on a fresh
response. -/
def corsBase : ResponseState :=
  setHeader (setHeader (setHeader emptyResponse
    "Access-Control-Allow-Origin" "http://localhost:4200")
    "Access-Control-Allow-Methods" "POST, GET, OPTIONS, PUT, DELETE")
    "Access-Control-Allow-Headers" "Content-Type, Authorization"

theorem serve_post_exchange (cfg : Config) (upstream : Upstream) (b : Option Json) :
    serve cfg upstream { method := "POST", path := "/api/dropbox/exchange", body := b } =
    exchangeHanlder cfg upstream b corsBase := rfl

theorem serve_post_refresh (cfg : Config) (upstream : Upstream) (b : Option Json) :
    serve cfg upstream { method := "POST", path := "/api/dropbox/refresh", body := b } =
    refreshHandler cfg upstream b corsBase := rfl

/-- Claim C1: for every request to the exchange endpoint whose body decodes
as the expected JSON shape with code field c, the handler issues exactly one
upstream call, whose form parameters are exactly code=c,
grant_type=authorization_code, client_id, client_secret and redirect_uri
from configuration; c is forwarded without further validation (it is an
arbitrary string, the empty string included). -/
theorem C1_exchange_builds_exact_params (cfg : Config) (upstream : Upstream)
    (body : Option Json) (c : String)
    (h : decodeAuthCode body = Except.ok { code := c }) :
    (serve cfg upstream { method := "POST", path := "/api/dropbox/exchange", body := body }).2 =
      [[("code", c), ("grant_type", "authorization_code"),
        ("client_id", cfg.clientID), ("client_secret", cfg.clientSecret),
        ("redirect_uri", cfg.redirectURI)]] := by
  simp only [serve_post_exchange]
  unfold exchangeHanlder
  rw [h]
  cases hu : upstream [("code", c), ("grant_type", "authorization_code"),
      ("client_id", cfg.clientID), ("client_secret", cfg.clientSecret),
      ("redirect_uri", cfg.redirectURI)] with
  | error e => simp [callDropbox, hu]
  | ok resp => simp [callDropbox, hu]

/-- Witness for C1 at a concrete configuration, upstream and body. -/
theorem C1_witness :
    (serve cfgEx upstreamOk200
        { method := "POST", path := "/api/dropbox/exchange",
          body := some (Json.obj [("code", Json.str "abc123")]) }).2 =
      [[("code", "abc123"), ("grant_type", "authorization_code"),
        ("client_id", cfgEx.clientID), ("client_secret", cfgEx.clientSecret),
        ("redirect_uri", cfgEx.redirectURI)]] :=
  C1_exchange_builds_exact_params cfgEx upstreamOk200
    (some (Json.obj [("code", Json.str "abc123")])) "abc123" rfl

/-- Claim C2: for every upstream response received (any status in 200..599,
arbitrary body bytes, fully read), the relay copies the identical status
code and identical body bytes to the caller, without alteration. -/
theorem C2_passthrough_identical (upstream : Upstream) (data : FormData)
    (w : ResponseState) (hst : w.status = none) (hb : w.body = [])
    (resp : UpstreamResp) (hup : upstream data = Except.ok resp)
    (hre : resp.readError = false)
    (h200 : 200 ≤ resp.statusCode) (h599 : resp.statusCode ≤ 599) :
    (callDropbox upstream w data).1.status = some resp.statusCode ∧
    (callDropbox upstream w data).1.body = resp.bodyBytes := by
  unfold callDropbox
  rw [hup]
  simp [write, writeHeader, setHeader, hst, hb]

/-- Witness for C2 at a concrete upstream 404 response. -/
theorem C2_witness :
    (callDropbox upstream404 emptyResponse [("a", "b")]).1.status = some 404 ∧
    (callDropbox upstream404 emptyResponse [("a", "b")]).1.body = [5, 6, 7] :=
  C2_passthrough_identical upstream404 [("a", "b")] emptyResponse rfl rfl
    { statusCode := 404, bodyBytes := [5, 6, 7], readError := false }
    rfl rfl (by decide) (by decide)

/-- Claim C3 counterexample: the body consisting of the empty JSON object
(a well-formed JSON body with the expected field missing) is, per the
claim, malformed and should yield 400 with no upstream contact; the code
instead decodes it successfully to an empty-string field, contacts the
upstream provider once, and relays the upstream 200. -/
theorem C3_counterexample_missing_field_forwarded :
    decodeRefresh (some (Json.obj [])) = Except.ok { refreshToken := "" } ∧
    (serve cfgEx upstreamOk200
        { method := "POST", path := "/api/dropbox/refresh",
          body := some (Json.obj []) }).1.status = some 200 ∧
    (serve cfgEx upstreamOk200
        { method := "POST", path := "/api/dropbox/refresh",
          body := some (Json.obj []) }).2 =
      [[("refresh_token", ""), ("grant_type", "refresh_token"),
        ("client_id", "id"), ("client_secret", "secret")]] :=
  ⟨rfl, rfl, rfl⟩

/-- Claim C3 (amended): for every request body the JSON decoder rejects —
non-JSON bytes, a non-object top-level value, or a wrong type for the
expected field — each of the two endpoints returns 400 with JSON body
error: invalid request body and does not contact the upstream provider;
a well-formed JSON object with the field missing decodes successfully
instead and is forwarded. -/
theorem C3_decode_failure_400 (cfg : Config) (upstream : Upstream) (body : Option Json) :
    (decodeAuthCode body = Except.error () →
      (serve cfg upstream { method := "POST", path := "/api/dropbox/exchange", body := body }).1.status = some 400 ∧
      (serve cfg upstream { method := "POST", path := "/api/dropbox/exchange", body := body }).1.body =
        strBytes (jsonErrorDoc "invalid request body") ∧
      (serve cfg upstream { method := "POST", path := "/api/dropbox/exchange", body := body }).2 = []) ∧
    (decodeRefresh body = Except.error () →
      (serve cfg upstream { method := "POST", path := "/api/dropbox/refresh", body := body }).1.status = some 400 ∧
      (serve cfg upstream { method := "POST", path := "/api/dropbox/refresh", body := body }).1.body =
        strBytes (jsonErrorDoc "invalid request body") ∧
      (serve cfg upstream { method := "POST", path := "/api/dropbox/refresh", body := body }).2 = []) := by
  constructor
  · intro h
    simp only [serve_post_exchange]
    unfold exchangeHanlder
    rw [h]
    exact ⟨rfl, rfl, rfl⟩
  · intro h
    simp only [serve_post_refresh]
    unfold refreshHandler
    rw [h]
    exact ⟨rfl, rfl, rfl⟩

/-- Witness for the amended C3 at a body that is not parseable JSON. -/
theorem C3_witness :
    (serve cfgEx upstreamOk200
        { method := "POST", path := "/api/dropbox/exchange", body := none }).1.status = some 400 ∧
    (serve cfgEx upstreamOk200
        { method := "POST", path := "/api/dropbox/exchange", body := none }).2 = [] ∧
    (serve cfgEx upstreamOk200
        { method := "POST", path := "/api/dropbox/refresh", body := none }).1.status = some 400 ∧
    (serve cfgEx upstreamOk200
        { method := "POST", path := "/api/dropbox/refresh", body := none }).2 = [] :=
  ⟨((C3_decode_failure_400 cfgEx upstreamOk200 none).1 rfl).1,
   ((C3_decode_failure_400 cfgEx upstreamOk200 none).1 rfl).2.2,
   ((C3_decode_failure_400 cfgEx upstreamOk200 none).2 rfl).1,
   ((C3_decode_failure_400 cfgEx upstreamOk200 none).2 rfl).2.2⟩

/-- Claim C4: for every request to the refresh endpoint whose body decodes
as the expected JSON shape with refresh token t, the handler issues exactly
one upstream call whose form parameters are exactly refresh_token=t,
grant_type=refresh_token, client_id and client_secret, and no parameter of
any issued call is named redirect_uri. -/
theorem C4_refresh_builds_exact_params (cfg : Config) (upstream : Upstream)
    (body : Option Json) (t : String)
    (h : decodeRefresh body = Except.ok { refreshToken := t }) :
    (serve cfg upstream { method := "POST", path := "/api/dropbox/refresh", body := body }).2 =
      [[("refresh_token", t), ("grant_type", "refresh_token"),
        ("client_id", cfg.clientID), ("client_secret", cfg.clientSecret)]] ∧
    ∀ call ∈ (serve cfg upstream { method := "POST", path := "/api/dropbox/refresh", body := body }).2,
      ∀ kv ∈ call, kv.1 ≠ "redirect_uri" := by
  have hmain : (serve cfg upstream { method := "POST", path := "/api/dropbox/refresh", body := body }).2 =
      [[("refresh_token", t), ("grant_type", "refresh_token"),
        ("client_id", cfg.clientID), ("client_secret", cfg.clientSecret)]] := by
    simp only [serve_post_refresh]
    unfold refreshHandler
    rw [h]
    cases hu : upstream [("refresh_token", t), ("grant_type", "refresh_token"),
        ("client_id", cfg.clientID), ("client_secret", cfg.clientSecret)] with
    | error e => simp [callDropbox, hu]
    | ok resp => simp [callDropbox, hu]
  refine ⟨hmain, ?_⟩
  intro call hc kv hkv
  rw [hmain] at hc
  simp only [List.mem_singleton] at hc
  subst hc
  simp only [List.mem_cons, List.not_mem_nil, or_false] at hkv
  rcases hkv with rfl | rfl | rfl | rfl <;> simp

/-- Witness for C4 at a concrete configuration, upstream and body. -/
theorem C4_witness :
    (serve cfgEx upstreamOk200
        { method := "POST", path := "/api/dropbox/refresh",
          body := some (Json.obj [("refresh_token", Json.str "tok")]) }).2 =
      [[("refresh_token", "tok"), ("grant_type", "refresh_token"),
        ("client_id", cfgEx.clientID), ("client_secret", cfgEx.clientSecret)]] :=
  (C4_refresh_builds_exact_params cfgEx upstreamOk200
    (some (Json.obj [("refresh_token", Json.str "tok")])) "tok" rfl).1

/-- Claim C5: on an upstream transport failure the relay answers 502 with
JSON body error: failed to contact dropbox, and the upstream call list for
that request holds exactly the single failed attempt — no retry. -/
theorem C5_transport_failure_502 (upstream : Upstream) (data : FormData)
    (w : ResponseState) (hst : w.status = none) (hb : w.body = [])
    (h : upstream data = Except.error ()) :
    (callDropbox upstream w data).1.status = some 502 ∧
    (callDropbox upstream w data).1.body = strBytes (jsonErrorDoc "failed to contact dropbox") ∧
    (callDropbox upstream w data).2 = [data] := by
  unfold callDropbox
  rw [h]
  simp [writeError, write, writeHeader, setHeader, hst, hb]

/-- Witness for C5 at a concrete failing upstream. -/
theorem C5_witness :
    (callDropbox upstreamDown emptyResponse [("a", "b")]).1.status = some 502 ∧
    (callDropbox upstreamDown emptyResponse [("a", "b")]).2 = [[("a", "b")]] :=
  ⟨(C5_transport_failure_502 upstreamDown [("a", "b")] emptyResponse rfl rfl rfl).1,
   (C5_transport_failure_502 upstreamDown [("a", "b")] emptyResponse rfl rfl rfl).2.2⟩

/-- Claim C6, evaluated at the failing input: on the passthrough path the
Content-Type header the code sets is the literal "application_json", which
is not "application/json" — the claim that every non-preflight response
carries application/json fails on the passthrough responses. -/
theorem C6_passthrough_content_type_literal :
    getHeader (serve cfgEx upstreamOk200
        { method := "POST", path := "/api/dropbox/exchange",
          body := some (Json.obj [("code", Json.str "abc123")]) }).1 "Content-Type" =
      some "application_json" ∧
    ("application_json" : String) ≠ "application/json" :=
  ⟨by decide, by decide⟩

/-- Claim C7: on every request the three CORS headers are set to their
fixed values, and every OPTIONS request gets 204 with empty body and no
upstream call, the wrapped endpoint logic never running. -/
theorem C7_cors_headers_and_preflight (cfg : Config) (upstream : Upstream) (req : Request) :
    (getHeader (serve cfg upstream req).1 "Access-Control-Allow-Origin" =
        some "http://localhost:4200" ∧
      getHeader (serve cfg upstream req).1 "Access-Control-Allow-Methods" =
        some "POST, GET, OPTIONS, PUT, DELETE" ∧
      getHeader (serve cfg upstream req).1 "Access-Control-Allow-Headers" =
        some "Content-Type, Authorization") ∧
    (req.method = "OPTIONS" →
      (serve cfg upstream req).1.status = some 204 ∧
      (serve cfg upstream req).1.body = [] ∧
      (serve cfg upstream req).2 = []) := by
  have hserve : serve cfg upstream req =
      if req.method = "OPTIONS" then (writeHeader corsBase 204, [])
      else mux cfg upstream req corsBase := rfl
  constructor
  · by_cases hm : req.method = "OPTIONS"
    · rw [hserve, if_pos hm]
      exact ⟨rfl, rfl, rfl⟩
    · rw [hserve, if_neg hm]
      refine ⟨?_, ?_, ?_⟩ <;>
        (rw [getHeader_mux _ _ _ _ _ (by decide) (by decide)]; rfl)
  · intro hm
    rw [hserve, if_pos hm]
    exact ⟨rfl, rfl, rfl⟩

/-- Witness for C7 at a concrete OPTIONS preflight request. -/
theorem C7_witness :
    (serve cfgEx upstreamOk200
        { method := "OPTIONS", path := "/api/dropbox/exchange", body := none }).1.status = some 204 ∧
    (serve cfgEx upstreamOk200
        { method := "OPTIONS", path := "/api/dropbox/exchange", body := none }).1.body = [] ∧
    (serve cfgEx upstreamOk200
        { method := "OPTIONS", path := "/api/dropbox/exchange", body := none }).2 = [] ∧
    getHeader (serve cfgEx upstreamOk200
        { method := "OPTIONS", path := "/api/dropbox/exchange", body := none }).1
        "Access-Control-Allow-Origin" = some "http://localhost:4200" :=
  ⟨((C7_cors_headers_and_preflight cfgEx upstreamOk200
      { method := "OPTIONS", path := "/api/dropbox/exchange", body := none }).2 rfl).1,
   ((C7_cors_headers_and_preflight cfgEx upstreamOk200
      { method := "OPTIONS", path := "/api/dropbox/exchange", body := none }).2 rfl).2.1,
   ((C7_cors_headers_and_preflight cfgEx upstreamOk200
      { method := "OPTIONS", path := "/api/dropbox/exchange", body := none }).2 rfl).2.2,
   (C7_cors_headers_and_preflight cfgEx upstreamOk200
      { method := "OPTIONS", path := "/api/dropbox/exchange", body := none }).1.1⟩

/-- Claim C8: startup checks the three configuration values in the fixed
order client ID, client secret, redirect URI; the first empty one aborts
startup with a fatal message naming that variable, and a started server
always holds the full, non-empty configuration from the environment. -/
theorem C8_startup_validation (env : String → String) :
    (env "DROPBOX_CLIENT_ID" = "" →
      mainStartup env =
        StartupResult.fatal "Missing required environment variables: DROPBOX_CLIENT_ID") ∧
    (env "DROPBOX_CLIENT_ID" ≠ "" → env "DROPBOX_CLIENT_SECRET" = "" →
      mainStartup env =
        StartupResult.fatal "Missing required environment variable: DROPBOX_CLIENT_SECRET") ∧
    (env "DROPBOX_CLIENT_ID" ≠ "" → env "DROPBOX_CLIENT_SECRET" ≠ "" →
      env "DROPBOX_REDIRECT_URI" = "" →
      mainStartup env =
        StartupResult.fatal "Missing required environment variable: DROPBOX_REDIRECT_URI") ∧
    (∀ cfg, mainStartup env = StartupResult.started cfg →
      cfg = { clientID := env "DROPBOX_CLIENT_ID",
              clientSecret := env "DROPBOX_CLIENT_SECRET",
              redirectURI := env "DROPBOX_REDIRECT_URI" } ∧
      cfg.clientID ≠ "" ∧ cfg.clientSecret ≠ "" ∧ cfg.redirectURI ≠ "") := by
  refine ⟨fun h1 => ?_, fun h1 h2 => ?_, fun h1 h2 h3 => ?_, fun cfg h => ?_⟩
  · simp [mainStartup, h1]
  · simp [mainStartup, h1, h2]
  · simp [mainStartup, h1, h2, h3]
  · by_cases h1 : env "DROPBOX_CLIENT_ID" = ""
    · simp [mainStartup, h1] at h
    · by_cases h2 : env "DROPBOX_CLIENT_SECRET" = ""
      · simp [mainStartup, h1, h2] at h
      · by_cases h3 : env "DROPBOX_REDIRECT_URI" = ""
        · simp [mainStartup, h1, h2, h3] at h
        · simp only [mainStartup, if_neg h1, if_neg h2, if_neg h3,
            StartupResult.started.injEq] at h
          subst h
          exact ⟨rfl, h1, h2, h3⟩

/-- Witness for C8 at an environment with all variables empty. -/
theorem C8_witness :
    mainStartup (fun _ => "") =
      StartupResult.fatal "Missing required environment variables: DROPBOX_CLIENT_ID" :=
  (C8_startup_validation (fun _ => "")).1 rfl

/-- Claim C9: the request method is never checked outside the OPTIONS
preflight branch: any non-OPTIONS request is served exactly as a POST with
the same path and body, so for example a GET with a valid JSON body
triggers the same upstream call a POST would. -/
theorem C9_method_not_checked (cfg : Config) (upstream : Upstream)
    (m p : String) (b : Option Json) (h : m ≠ "OPTIONS") :
    serve cfg upstream { method := m, path := p, body := b } =
    serve cfg upstream { method := "POST", path := p, body := b } := by
  have h1 : serve cfg upstream { method := m, path := p, body := b } =
      if m = "OPTIONS" then (writeHeader corsBase 204, [])
      else mux cfg upstream { method := m, path := p, body := b } corsBase := rfl
  have h2 : serve cfg upstream { method := "POST", path := p, body := b } =
      mux cfg upstream { method := "POST", path := p, body := b } corsBase := rfl
  rw [h1, h2, if_neg h]
  unfold mux
  rfl

/-- Witness for C9: a GET to the exchange endpoint is served exactly like
the corresponding POST. -/
theorem C9_witness :
    serve cfgEx upstreamOk200
      { method := "GET", path := "/api/dropbox/exchange",
        body := some (Json.obj [("code", Json.str "abc123")]) } =
    serve cfgEx upstreamOk200
      { method := "POST", path := "/api/dropbox/exchange",
        body := some (Json.obj [("code", Json.str "abc123")]) } :=
  C9_method_not_checked cfgEx upstreamOk200 "GET" "/api/dropbox/exchange"
    (some (Json.obj [("code", Json.str "abc123")])) (by decide)

/-- Claim C10: when the upstream response body read fails partway, the
read error is discarded: the relay still answers with the upstream status
code and exactly the bytes read before the failure. -/
theorem C10_read_error_discarded (upstream : Upstream) (data : FormData)
    (w : ResponseState) (hst : w.status = none) (hb : w.body = [])
    (resp : UpstreamResp) (hup : upstream data = Except.ok resp)
    (hre : resp.readError = true) :
    (callDropbox upstream w data).1.status = some resp.statusCode ∧
    (callDropbox upstream w data).1.body = resp.bodyBytes := by
  unfold callDropbox
  rw [hup]
  simp [write, writeHeader, setHeader, hst, hb]

/-- Witness for C10 at a concrete partial read: one byte arrived before
the read failed, the relay answers 418 with that byte. -/
theorem C10_witness :
    (callDropbox upstreamPartial emptyResponse [("a", "b")]).1.status = some 418 ∧
    (callDropbox upstreamPartial emptyResponse [("a", "b")]).1.body = [104] :=
  C10_read_error_discarded upstreamPartial [("a", "b")] emptyResponse rfl rfl
    { statusCode := 418, bodyBytes := [104], readError := true } rfl rfl

end TokenRelay
